import Mathlib

/-!
Verification of the pipeline status / job tracking core of the
stock-forecasting dashboard service.

The Python sources are shallowly embedded: every external effect
(connection-pool creation, `getconn` on a pool, running a SQL query,
an HTTP request) is represented by an oracle recorded in a "world"
structure, and each Python function becomes a total Lean function from
its world (plus explicit pool-counter state) to its result.  A raised
Python exception is an `Except.error`/`Option` value in the oracle; the
`try/except/finally` control flow of the source is reproduced by the
match structure of the embedding.
-/

set_option linter.unusedVariables false
set_option maxRecDepth 8192

namespace StockDashboard

/-- Checked-out connection counters, one per connection pool used by
`database.py` (status, ingestion and preprocessing stores).  `getconn`
increments a counter, `putconn` decrements it. -/
structure Pools where
  statusOut : Nat
  ingestionOut : Nat
  preprocessingOut : Nat
deriving DecidableEq, Repr

/-- The dictionary returned by `database.get_pipeline_status`.  The three
count keys are `Option` because the error paths of the Python function
return a dictionary that does not contain them.  The `timestamp` key of
the source (wall clock, line 86) is not modelled. -/
structure StatusDict where
  status : String
  message : String
  raw_count : Option Nat := none
  prep_count : Option Nat := none
  series_count : Option Nat := none
deriving DecidableEq, Repr

/-- Oracle world for one execution of `get_pipeline_status`
(`database.py` lines 37-97).  The three `Bool` fields say whether
`get_connection_pool` returned a pool (`True`) or `None` for the given
store; the `Except` fields record whether each `getconn`/query raised
(with the exception text) or succeeded.  A `COUNT(*)` result is carried
as `Option Nat`: counts are cardinalities, hence non-negative, and
`none` models a `NULL` cell delivered by the driver, which line 53/60/67
coerce with `or 0`. -/
structure PipelineWorld where
  statusPool : Bool
  ingestionPool : Bool
  preprocessingPool : Bool
  rawGetconn : Except String Unit
  rawQuery : Except String (Option Nat)
  prepGetconn : Except String Unit
  prepQuery : Except String (Option Nat)
  seriesQuery : Except String (Option Nat)

/-- Python `x or 0` applied to a fetched count cell: `None` becomes `0`,
a number is kept (for a non-negative count, `0 or 0` is also `0`). -/
def orZero : Option Nat → Nat
  | none => 0
  | some n => n

/-- Shallow embedding of the dictionary returned by
`database.get_pipeline_status` (lines 37-97).  Control flow mirrors the
source: the `all([...])` guard on the three pools (line 43), the raw
count query (lines 50-53), the two preprocessing queries (lines 57-67),
the status derivation (lines 70-78), and the `except` clause that
converts any raised exception into an error dictionary (lines 89-91).
The effect on the pool counters is embedded separately by
`get_pipeline_status_pools`. -/
def get_pipeline_status (w : PipelineWorld) : StatusDict :=
  if w.statusPool && w.ingestionPool && w.preprocessingPool then
    match w.rawGetconn with
    | Except.error e => { status := "error", message := "Status check failed: " ++ e }
    | Except.ok _ =>
      match w.rawQuery with
      | Except.error e => { status := "error", message := "Status check failed: " ++ e }
      | Except.ok rawCell =>
        let raw_count := orZero rawCell
        match w.prepGetconn with
        | Except.error e => { status := "error", message := "Status check failed: " ++ e }
        | Except.ok _ =>
          match w.prepQuery with
          | Except.error e => { status := "error", message := "Status check failed: " ++ e }
          | Except.ok prepCell =>
            let prep_count := orZero prepCell
            match w.seriesQuery with
            | Except.error e => { status := "error", message := "Status check failed: " ++ e }
            | Except.ok seriesCell =>
              let series_count := orZero seriesCell
              if series_count > 0 then
                { status := "ready",
                  message := "✅ " ++ toString series_count ++ " series ready for analysis",
                  raw_count := some raw_count,
                  prep_count := some prep_count,
                  series_count := some series_count }
              else if raw_count > 0 then
                { status := "processing",
                  message := "🔄 " ++ toString raw_count ++ " raw records - preprocessing pending",
                  raw_count := some raw_count,
                  prep_count := some prep_count,
                  series_count := some series_count }
              else
                { status := "waiting",
                  message := "⏳ Waiting for data ingestion",
                  raw_count := some raw_count,
                  prep_count := some prep_count,
                  series_count := some series_count }
  else { status := "error", message := "One or more databases unavailable" }

/-- The effect of one `get_pipeline_status` call on the pool counters,
following the `getconn` calls (lines 50, 57) and the `finally` clause
(lines 93-97) that returns exactly the connections that were checked
out.  Once both connections are held, the remaining queries do not touch
the counters, so their outcomes do not appear here. -/
def get_pipeline_status_pools (w : PipelineWorld) (p : Pools) : Pools :=
  if w.statusPool && w.ingestionPool && w.preprocessingPool then
    match w.rawGetconn with
    | Except.error _ => p
    | Except.ok _ =>
      let p1 : Pools := { p with ingestionOut := p.ingestionOut + 1 }
      match w.rawQuery with
      | Except.error _ => { p1 with ingestionOut := p1.ingestionOut - 1 }
      | Except.ok _ =>
        match w.prepGetconn with
        | Except.error _ => { p1 with ingestionOut := p1.ingestionOut - 1 }
        | Except.ok _ =>
          let p2 : Pools := { p1 with preprocessingOut := p1.preprocessingOut + 1 }
          { p2 with ingestionOut := p2.ingestionOut - 1,
                    preprocessingOut := p2.preprocessingOut - 1 }
  else p

/-- True when this execution of `get_pipeline_status` hit a failure on a
required store: a missing pool (line 43) or a raised `getconn`/query
(lines 50-67, caught at line 89). -/
def observationFails (w : PipelineWorld) : Bool :=
  !(w.statusPool && w.ingestionPool && w.preprocessingPool) ||
  !w.rawGetconn.isOk || !w.rawQuery.isOk ||
  !w.prepGetconn.isOk || !w.prepQuery.isOk || !w.seriesQuery.isOk

example :
    get_pipeline_status
      ⟨true, true, true, Except.ok (), Except.ok (some 1000),
       Except.ok (), Except.ok (some 0), Except.ok (some 0)⟩ =
    { status := "processing",
      message := "🔄 1000 raw records - preprocessing pending",
      raw_count := some 1000, prep_count := some 0, series_count := some 0 } := by
  decide

example :
    (get_pipeline_status
      ⟨true, true, true, Except.ok (), Except.ok (some 1000),
       Except.ok (), Except.error "boom", Except.ok (some 0)⟩).status = "error" := by
  decide

/-- A stored row of the `pipeline_jobs` relation in the status store, as
read by `get_job_history` and `get_active_jobs`.  Timestamps are modelled
as integers (epoch seconds). -/
structure JobRow where
  job_id : String
  series_id : String
  status : String
  stage : String
  created_at : Int
  updated_at : Int
  error_message : Option String
deriving DecidableEq, Repr

/-- One output row of the `get_job_history` SELECT (`database.py` lines
138-151): the stored columns plus the derived
`duration_seconds = EXTRACT(EPOCH FROM (updated_at - created_at))`. -/
structure HistoryRow where
  job_id : String
  series_id : String
  status : String
  stage : String
  created_at : Int
  updated_at : Int
  duration_seconds : Int
  error_message : Option String
deriving DecidableEq, Repr

/-- One output row of the `get_active_jobs` SELECT (`database.py` lines
170-180), with `running_seconds = EXTRACT(EPOCH FROM (NOW() - created_at))`
computed against the query-time clock. -/
structure ActiveRow where
  job_id : String
  series_id : String
  stage : String
  created_at : Int
  running_seconds : Int
deriving DecidableEq, Repr

/-- The comparison used by `ORDER BY created_at DESC`. -/
def createdDesc (a b : JobRow) : Prop := b.created_at ≤ a.created_at

instance : DecidableRel createdDesc := fun a b => Int.decLe _ _

instance : IsTotal JobRow createdDesc := ⟨fun a b => Int.le_total b.created_at a.created_at⟩

instance : IsTrans JobRow createdDesc := ⟨fun _ _ _ h1 h2 => le_trans h2 h1⟩

/-- Model of `ORDER BY created_at DESC` over the physical row order of
the table: a stable sort on the sole sort key the query names.  The SQL
specifies no tie-break, so rows with equal `created_at` are kept in the
store's physical order. -/
def orderByCreatedDesc (tbl : List JobRow) : List JobRow :=
  List.insertionSort createdDesc tbl

/-- The SELECT projection of `get_job_history` applied to one row. -/
def toHistoryRow (r : JobRow) : HistoryRow :=
  { job_id := r.job_id, series_id := r.series_id, status := r.status,
    stage := r.stage, created_at := r.created_at, updated_at := r.updated_at,
    duration_seconds := r.updated_at - r.created_at,
    error_message := r.error_message }

/-- The SELECT projection of `get_active_jobs` applied to one row, given
the clock value `now` used by `NOW()`. -/
def toActiveRow (now : Int) (r : JobRow) : ActiveRow :=
  { job_id := r.job_id, series_id := r.series_id, stage := r.stage,
    created_at := r.created_at, running_seconds := now - r.created_at }

/-- Result of the query in `get_job_history` (lines 138-152): order by
`created_at` descending, apply `LIMIT %s` with the bound `limit`
parameter, project each row. -/
def runHistoryQuery (tbl : List JobRow) (limit : Nat) : List HistoryRow :=
  ((orderByCreatedDesc tbl).take limit).map toHistoryRow

/-- Result of the query in `get_active_jobs` (lines 170-181): keep the
rows `WHERE status = 'running'`, order by `created_at` descending,
project each row. -/
def runActiveQuery (tbl : List JobRow) (now : Int) : List ActiveRow :=
  (orderByCreatedDesc (tbl.filter (fun r => r.status == "running"))).map (toActiveRow now)

/-- Oracle world for one execution of a registry read (`get_job_history`
or `get_active_jobs`).  `poolCreate` is the outcome of creating the
status-store pool inside `get_connection_pool` (an `error` makes it
return `None` after showing the creation failure with `st.error`);
`getconn` and `queryRaises` record whether those two steps raised; and
`store` is the physical contents of `pipeline_jobs` read when the query
succeeds. -/
structure RegistryWorld where
  poolCreate : Except String Unit
  getconn : Except String Unit
  queryRaises : Option String
  store : List JobRow

/-- Outcome of a registry read: the returned rows (the DataFrame), the
error reports surfaced to the operator during the call (`st.error` from
pool creation, `logging.error` from the `except` clauses), and the pool
counters after the call. -/
structure RegistryOutcome (α : Type) where
  rows : List α
  reported : List String
  pools : Pools
deriving DecidableEq, Repr

/-- True when a registry read execution hit a failure: status pool
unavailable, `getconn` raised, or the query raised. -/
def registryFails (w : RegistryWorld) : Bool :=
  !w.poolCreate.isOk || !w.getconn.isOk || w.queryRaises.isSome

/-- Shallow embedding of `database.get_job_history` (lines 129-159) with
its pool effect: return an empty DataFrame if the status pool is
unavailable (lines 131-133); otherwise check out a connection, run the
history query with `limit` as a bound parameter, convert a raised
exception into a logged error plus an empty DataFrame (lines 154-156),
and always return the connection in `finally` (lines 157-159). -/
def get_job_history_run (w : RegistryWorld) (limit : Nat) (p : Pools) :
    RegistryOutcome HistoryRow :=
  match w.poolCreate with
  | Except.error e =>
      { rows := [],
        reported := ["❌ Connection pool creation failed for status: " ++ e],
        pools := p }
  | Except.ok _ =>
    match w.getconn with
    | Except.error e =>
        { rows := [], reported := ["Failed to fetch job history: " ++ e], pools := p }
    | Except.ok _ =>
      let p1 : Pools := { p with statusOut := p.statusOut + 1 }
      let pFin : Pools := { p1 with statusOut := p1.statusOut - 1 }
      match w.queryRaises with
      | some e =>
          { rows := [], reported := ["Failed to fetch job history: " ++ e], pools := pFin }
      | none =>
          { rows := runHistoryQuery w.store limit, reported := [], pools := pFin }

/-- Shallow embedding of `database.get_active_jobs` (lines 161-188) with
its pool effect, structured exactly as `get_job_history_run` but running
the active-jobs query and logging "Failed to fetch active jobs". -/
def get_active_jobs_run (w : RegistryWorld) (now : Int) (p : Pools) :
    RegistryOutcome ActiveRow :=
  match w.poolCreate with
  | Except.error e =>
      { rows := [],
        reported := ["❌ Connection pool creation failed for status: " ++ e],
        pools := p }
  | Except.ok _ =>
    match w.getconn with
    | Except.error e =>
        { rows := [], reported := ["Failed to fetch active jobs: " ++ e], pools := p }
    | Except.ok _ =>
      let p1 : Pools := { p with statusOut := p.statusOut + 1 }
      let pFin : Pools := { p1 with statusOut := p1.statusOut - 1 }
      match w.queryRaises with
      | some e =>
          { rows := [], reported := ["Failed to fetch active jobs: " ++ e], pools := pFin }
      | none =>
          { rows := runActiveQuery w.store now, reported := [], pools := pFin }

/-- Oracle world for the query part of `database.fetch_series_list`
(lines 99-127): outcomes of `getconn` and of the DISTINCT-series query
on the preprocessing store. -/
structure SeriesWorld where
  getconn : Except String Unit
  query : Except String (List String)

/-- Shallow embedding of `database.fetch_series_list` (lines 99-127)
with its pool effect.  It first calls `get_pipeline_status` (line 102,
threading the pool counters through the nested call); returns `[]` when
the reported `series_count` is zero or absent (line 104) or when the
preprocessing pool is unavailable (lines 107-109); otherwise checks out
a preprocessing connection inside `try`, converts a raised exception
into `[]` (lines 122-124), and returns the connection in `finally`
(lines 125-127).  The preprocessing pool is the same cached pool that
`get_pipeline_status` saw, so its availability is `w.preprocessingPool`. -/
def fetch_series_list_run (w : PipelineWorld) (sw : SeriesWorld) (p : Pools) :
    List String × Pools :=
  let status := get_pipeline_status w
  let p0 := get_pipeline_status_pools w p
  if (status.series_count.getD 0) == 0 then
    ([], p0)
  else if w.preprocessingPool then
    match sw.getconn with
    | Except.error _ => ([], p0)
    | Except.ok _ =>
      let p1 : Pools := { p0 with preprocessingOut := p0.preprocessingOut + 1 }
      let pFin : Pools := { p1 with preprocessingOut := p1.preprocessingOut - 1 }
      match sw.query with
      | Except.error _ => ([], pFin)
      | Except.ok series => (series, pFin)
  else
    ([], p0)

/-- The result dictionary of `database.trigger_pipeline`.  On the
failure path the Python dictionary has no `job_id` key; on the success
path the key holds `result.get("job_id")`, which is `None` when the
response body lacks the field — both are `none` here and the two cases
are separated by `success`. -/
structure TriggerResult where
  success : Bool
  job_id : Option String := none
  message : String
deriving DecidableEq, Repr

/-- A parsed trigger-response body, reduced to the one field the client
reads: `jobIdField` is the value `result.get("job_id")` would extract
(`none` when the key is absent or null). -/
structure JsonBody where
  jobIdField : Option String
deriving DecidableEq, Repr

/-- Oracle for the HTTP call inside `trigger_pipeline`, following the
order of the source: `requests.get` may raise (transport failure),
then `response.raise_for_status()` may raise (non-success status code),
then `response.json()` may raise (unparseable body), else a parsed body
is available. -/
inductive HttpOutcome where
  | transportError (e : String)
  | httpError (e : String)
  | malformed (e : String)
  | ok (body : JsonBody)
deriving DecidableEq, Repr

/-- The HTTP request issued by `trigger_pipeline`: target URL and query
parameters. -/
structure HttpRequest where
  url : String
  params : List (String × String)
deriving DecidableEq, Repr

/-- The request constructed by `database.trigger_pipeline` lines
196-205: `params` is the literal dictionary built at lines 196-199 and
the URL appends `/<series_id>/fetch_store` to the configured ingestion
service base URL.  The `config_data` argument of the function appears
nowhere in this construction — the source never reads it. -/
def trigger_request (baseUrl series_id : String)
    (config_data : List (String × String)) : HttpRequest :=
  { url := baseUrl ++ "/" ++ series_id ++ "/fetch_store",
    params := [("interval", "5m"), ("period", "3mo")] }

/-- Shallow embedding of `database.trigger_pipeline` (lines 190-219):
any exception raised by the request, the status check or the JSON parse
is caught by the single `except` clause (lines 214-219) and becomes a
`success=False` dictionary; otherwise the function returns
`success=True` with `job_id = result.get("job_id")` (lines 208-213).
Totality of this function is the embedding of "never raises past its
own boundary". -/
def trigger_pipeline (series_id : String) (config_data : List (String × String))
    (w : HttpOutcome) : TriggerResult :=
  match w with
  | HttpOutcome.transportError e =>
      { success := false, message := "Failed to trigger pipeline: " ++ e }
  | HttpOutcome.httpError e =>
      { success := false, message := "Failed to trigger pipeline: " ++ e }
  | HttpOutcome.malformed e =>
      { success := false, message := "Failed to trigger pipeline: " ++ e }
  | HttpOutcome.ok body =>
      { success := true, job_id := body.jobIdField,
        message := "Pipeline started for " ++ series_id }

/-- The SQL text built by `dashboard_app.fetch_time_series_data` (lines
99-111): an f-string that interpolates the caller-provided `table` and
`hours` arguments directly into the query, while `series_id` is left to
the bound `%s` parameter.  Whitespace is normalised to single spaces. -/
def fetch_time_series_query (table : String) (hours : Nat) : String :=
  "SELECT timestamp, open, high, low, close, volume, features FROM " ++ table ++
  " WHERE series_id = %s AND timestamp >= NOW() - INTERVAL '" ++ toString hours ++
  " hours' ORDER BY timestamp ASC"

/-- The parameter tuple bound to the query of `fetch_time_series_data`
(line 110): only `series_id`. -/
def fetch_time_series_params (series_id : String) : List String := [series_id]

/-- Byte-wise lexicographic comparison of character lists, used to state
the "ties broken by job_id" ordering the claim asserts. -/
def charListLe : List Char → List Char → Bool
  | [], _ => true
  | _ :: _, [] => false
  | a :: as, b :: bs =>
      if a.val < b.val then true
      else if b.val < a.val then false
      else charListLe as bs

/-- Lexicographic order on strings via their character lists. -/
def strLe (a b : String) : Bool := charListLe a.data b.data

/-- Ordering "created_at descending, ties broken by job_id ascending"
on history rows. -/
def createdDescJobAsc (a b : HistoryRow) : Prop :=
  b.created_at < a.created_at ∨ (b.created_at = a.created_at ∧ strLe a.job_id b.job_id = true)

/-- Ordering "created_at descending, ties broken by job_id descending"
on history rows. -/
def createdDescJobDesc (a b : HistoryRow) : Prop :=
  b.created_at < a.created_at ∨ (b.created_at = a.created_at ∧ strLe b.job_id a.job_id = true)

instance : DecidableRel createdDescJobAsc := fun a b => by
  unfold createdDescJobAsc; infer_instance

instance : DecidableRel createdDescJobDesc := fun a b => by
  unfold createdDescJobDesc; infer_instance

/-- Status of one recorded stage of a job (spec data model, §3). -/
inductive StageStatus where
  | queued
  | running
  | completed
  | failed
deriving DecidableEq, Repr

/-- The stages of a job that have started, i.e. are past `queued`. -/
def startedStages (stages : List StageStatus) : List StageStatus :=
  stages.filter (fun s => s != StageStatus.queued)

/-- Modelled from the spec: the centralized job-level status derivation
of the Job Registry Reader (§4.3), which is missing from
`src/database.py` — the read paths there return the stored `status`
column unchanged, and the per-stage rollup (`get_job_details` and the
stage-status aggregation that `app.py` imports and consumes) is absent
from the sources.  Following §4.3 with the §9 note that never-started
(`queued`) stages are absent from the derivation: a job with zero
recorded stages is `running`; if some started stage failed, the job is
`partial` when another started stage is `completed`/`running` and
`failed` when every started stage failed; otherwise a running stage
makes the job `running`; otherwise all started stages are `completed`
and the job is `completed`; a job whose recorded stages are all still
`queued` has not been picked up and is `running`. -/
def deriveJobStatus (stages : List StageStatus) : String :=
  let started := startedStages stages
  if stages.isEmpty then "running"
  else if started.any (fun s => s == StageStatus.failed) then
    if started.any (fun s => s == StageStatus.completed || s == StageStatus.running) then
      "partial"
    else
      "failed"
  else if started.any (fun s => s == StageStatus.running) then "running"
  else if !started.isEmpty && started.all (fun s => s == StageStatus.completed) then
    "completed"
  else "running"

example : deriveJobStatus [] = "running" := by decide

example : deriveJobStatus [StageStatus.failed, StageStatus.running] = "partial" := by decide

example : deriveJobStatus [StageStatus.completed, StageStatus.queued] = "completed" := by decide

example : deriveJobStatus [StageStatus.queued, StageStatus.queued] = "running" := by decide

example : deriveJobStatus [StageStatus.failed, StageStatus.failed] = "failed" := by decide

/-! ## Helper lemmas -/

theorem prefix_append_ne_empty (a b : String) (ha : a.length ≠ 0) : a ++ b ≠ "" := by
  intro h
  have h2 := congrArg String.length h
  rw [String.length_append] at h2
  have h0 : ("" : String).length = 0 := rfl
  rw [h0] at h2
  omega

theorem status_check_msg_ne_empty (e : String) :
    "Status check failed: " ++ e ≠ "" :=
  prefix_append_ne_empty _ _ (by decide)

theorem trigger_fail_msg_ne_empty (e : String) :
    "Failed to trigger pipeline: " ++ e ≠ "" :=
  prefix_append_ne_empty _ _ (by decide)

theorem started_msg_ne_empty (sid : String) :
    "Pipeline started for " ++ sid ≠ "" :=
  prefix_append_ne_empty _ _ (by decide)

theorem append3_ne_empty (a b c : String) (ha : a.length ≠ 0) : a ++ b ++ c ≠ "" := by
  apply prefix_append_ne_empty
  rw [String.length_append]
  omega

theorem ready_msg_ne_empty (n : Nat) :
    "✅ " ++ toString n ++ " series ready for analysis" ≠ "" :=
  append3_ne_empty _ _ _ (by decide)

theorem processing_msg_ne_empty (n : Nat) :
    "🔄 " ++ toString n ++ " raw records - preprocessing pending" ≠ "" :=
  append3_ne_empty _ _ _ (by decide)

/-! ## Claims about the status aggregator -/

/-- C2.  A failure on any required store — missing pool or a raised
getconn/query — makes `get_pipeline_status` return status `error` (with
a non-empty diagnostic message), and conversely a non-`error` verdict is
only returned when every store was observed successfully: no
ready/processing/waiting verdict is ever built from a partial subset of
the stores. -/
theorem pipeline_status_error_iff_any_store_failure (w : PipelineWorld) :
    (((get_pipeline_status w).status = "error") ↔ observationFails w = true) ∧
    ((get_pipeline_status w).status = "error" → (get_pipeline_status w).message ≠ "") := by
  unfold get_pipeline_status observationFails
  cases hb : (w.statusPool && w.ingestionPool && w.preprocessingPool) with
  | false => simp [hb]
  | true =>
    cases hrg : w.rawGetconn with
    | error e => simp [hb, hrg, Except.isOk, Except.toBool, status_check_msg_ne_empty]
    | ok u1 =>
      cases hrq : w.rawQuery with
      | error e => simp [hb, hrg, hrq, Except.isOk, Except.toBool, status_check_msg_ne_empty]
      | ok rawCell =>
        cases hpg : w.prepGetconn with
        | error e =>
          simp [hb, hrg, hrq, hpg, Except.isOk, Except.toBool, status_check_msg_ne_empty]
        | ok u2 =>
          cases hpq : w.prepQuery with
          | error e =>
            simp [hb, hrg, hrq, hpg, hpq, Except.isOk, Except.toBool,
              status_check_msg_ne_empty]
          | ok prepCell =>
            cases hsq : w.seriesQuery with
            | error e =>
              simp [hb, hrg, hrq, hpg, hpq, hsq, Except.isOk, Except.toBool,
                status_check_msg_ne_empty]
            | ok seriesCell =>
              simp only [hb, hrg, hrq, hpg, hpq, hsq, Except.isOk, Except.toBool]
              rcases Nat.eq_zero_or_pos (orZero seriesCell) with hz | hz
              · rcases Nat.eq_zero_or_pos (orZero rawCell) with hr | hr
                · simp [hz, hr]
                · simp [hz, hr]
              · simp [hz]

/-- Witness for C2: with the status pool unavailable, the call reports
an error with a non-empty message. -/
theorem pipeline_status_error_iff_instance :
    (get_pipeline_status
      ⟨false, true, true, Except.ok (), Except.ok none,
       Except.ok (), Except.ok none, Except.ok none⟩).message ≠ "" :=
  (pipeline_status_error_iff_any_store_failure
    ⟨false, true, true, Except.ok (), Except.ok none,
     Except.ok (), Except.ok none, Except.ok none⟩).2
    ((pipeline_status_error_iff_any_store_failure
      ⟨false, true, true, Except.ok (), Except.ok none,
       Except.ok (), Except.ok none, Except.ok none⟩).1.mpr (by decide))

/-- C1.  On every successful observation of the three counts
`(raw_count, prep_count, series_count)`, `get_pipeline_status` derives
the overall status with the precedence of `database.py` lines 70-78:
`ready` iff `series_count > 0`, `processing` iff `series_count = 0` and
`raw_count > 0`, and `waiting` iff both are `0`. -/
theorem pipeline_status_precedence (w : PipelineWorld) (r pc s : Nat)
    (hsp : w.statusPool = true) (hip : w.ingestionPool = true)
    (hpp : w.preprocessingPool = true)
    (hrg : w.rawGetconn = Except.ok ()) (hrq : w.rawQuery = Except.ok (some r))
    (hpg : w.prepGetconn = Except.ok ()) (hpq : w.prepQuery = Except.ok (some pc))
    (hsq : w.seriesQuery = Except.ok (some s)) :
    ((get_pipeline_status w).status = "ready" ↔ 0 < s) ∧
    ((get_pipeline_status w).status = "processing" ↔ s = 0 ∧ 0 < r) ∧
    ((get_pipeline_status w).status = "waiting" ↔ s = 0 ∧ r = 0) := by
  unfold get_pipeline_status
  simp only [hsp, hip, hpp, hrg, hrq, hpg, hpq, hsq, Bool.and_self, if_true]
  by_cases hs : 0 < s
  · simp [orZero, hs]
    omega
  · by_cases hr : 0 < r
    · simp [orZero, hs, hr]
      omega
    · simp [orZero, hs, hr]
      omega

/-- Witness for C1: a concrete world observing counts (1000, 1000, 3)
is classified `ready` and not `processing`/`waiting`. -/
theorem pipeline_status_precedence_instance :
    (get_pipeline_status
      ⟨true, true, true, Except.ok (), Except.ok (some 1000),
       Except.ok (), Except.ok (some 1000), Except.ok (some 3)⟩).status = "ready" :=
  (pipeline_status_precedence
    ⟨true, true, true, Except.ok (), Except.ok (some 1000),
     Except.ok (), Except.ok (some 1000), Except.ok (some 3)⟩
    1000 1000 3 rfl rfl rfl rfl rfl rfl rfl rfl).1.mpr (by decide)

/-- C10.  Every dictionary produced by `get_pipeline_status` carries a
status drawn from ready/processing/waiting/error and a non-empty
message; exactly the non-error dictionaries carry the three count keys
(non-negative by construction, since they are `Nat`), and a `NULL`
count cell delivered by a store is coerced to `0` by the `or 0` of
lines 53, 60 and 67. -/
theorem pipeline_status_dict_shape (w : PipelineWorld) :
    ((get_pipeline_status w).status = "ready" ∨
     (get_pipeline_status w).status = "processing" ∨
     (get_pipeline_status w).status = "waiting" ∨
     (get_pipeline_status w).status = "error") ∧
    ((get_pipeline_status w).message ≠ "") ∧
    ((get_pipeline_status w).status ≠ "error" →
      (get_pipeline_status w).raw_count.isSome ∧
      (get_pipeline_status w).prep_count.isSome ∧
      (get_pipeline_status w).series_count.isSome) ∧
    ((get_pipeline_status w).status = "error" →
      (get_pipeline_status w).raw_count = none ∧
      (get_pipeline_status w).prep_count = none ∧
      (get_pipeline_status w).series_count = none) ∧
    (∀ c, w.rawQuery = Except.ok c → (get_pipeline_status w).status ≠ "error" →
      (get_pipeline_status w).raw_count = some (orZero c)) ∧
    (∀ c, w.prepQuery = Except.ok c → (get_pipeline_status w).status ≠ "error" →
      (get_pipeline_status w).prep_count = some (orZero c)) ∧
    (∀ c, w.seriesQuery = Except.ok c → (get_pipeline_status w).status ≠ "error" →
      (get_pipeline_status w).series_count = some (orZero c)) := by
  unfold get_pipeline_status
  cases hb : (w.statusPool && w.ingestionPool && w.preprocessingPool) with
  | false => simp [hb]
  | true =>
    cases hrg : w.rawGetconn with
    | error e => simp [hb, hrg, status_check_msg_ne_empty]
    | ok u1 =>
      cases hrq : w.rawQuery with
      | error e => simp [hb, hrg, hrq, status_check_msg_ne_empty]
      | ok rawCell =>
        cases hpg : w.prepGetconn with
        | error e => simp [hb, hrg, hrq, hpg, status_check_msg_ne_empty]
        | ok u2 =>
          cases hpq : w.prepQuery with
          | error e => simp [hb, hrg, hrq, hpg, hpq, status_check_msg_ne_empty]
          | ok prepCell =>
            cases hsq : w.seriesQuery with
            | error e => simp [hb, hrg, hrq, hpg, hpq, hsq, status_check_msg_ne_empty]
            | ok seriesCell =>
              simp only [hb, hrg, hrq, hpg, hpq, hsq]
              rcases Nat.eq_zero_or_pos (orZero seriesCell) with hz | hz
              · rcases Nat.eq_zero_or_pos (orZero rawCell) with hr | hr
                · simp [hz, hr]
                · simp [hz, hr, processing_msg_ne_empty]
              · simp [hz, ready_msg_ne_empty]

/-- Witness for C10: in a world where the raw count cell comes back
NULL and the series count is 3, the dictionary is non-error, the NULL
is coerced to a raw_count of 0, and all three count keys are present. -/
theorem pipeline_status_dict_shape_instance :
    (get_pipeline_status
      ⟨true, true, true, Except.ok (), Except.ok none,
       Except.ok (), Except.ok (some 7), Except.ok (some 3)⟩).raw_count = some 0 :=
  (pipeline_status_dict_shape
    ⟨true, true, true, Except.ok (), Except.ok none,
     Except.ok (), Except.ok (some 7), Except.ok (some 3)⟩).2.2.2.2.1
    none rfl (by decide)

/-! ## Claims about resource handling -/

theorem pipeline_pools_restored (w : PipelineWorld) (p : Pools) :
    get_pipeline_status_pools w p = p := by
  obtain ⟨a, b, c⟩ := p
  unfold get_pipeline_status_pools
  cases hb : (w.statusPool && w.ingestionPool && w.preprocessingPool) with
  | false => simp
  | true =>
    cases hrg : w.rawGetconn with
    | error e => simp
    | ok u1 =>
      cases hrq : w.rawQuery with
      | error e => simp
      | ok rawCell =>
        cases hpg : w.prepGetconn with
        | error e => simp
        | ok u2 => simp

theorem series_pools_restored (w : PipelineWorld) (sw : SeriesWorld) (p : Pools) :
    (fetch_series_list_run w sw p).2 = p := by
  unfold fetch_series_list_run
  rw [pipeline_pools_restored]
  obtain ⟨a, b, c⟩ := p
  cases hz : ((get_pipeline_status w).series_count.getD 0 == 0) with
  | true => simp [hz]
  | false =>
    cases hpp : w.preprocessingPool with
    | false => simp [hz, hpp]
    | true =>
      cases hg : sw.getconn with
      | error e => simp [hz, hpp, hg]
      | ok u =>
        cases hq : sw.query with
        | error e => simp [hz, hpp, hg, hq]
        | ok series => simp [hz, hpp, hg, hq]

theorem history_pools_restored (w : RegistryWorld) (limit : Nat) (p : Pools) :
    (get_job_history_run w limit p).pools = p := by
  obtain ⟨a, b, c⟩ := p
  unfold get_job_history_run
  cases hc : w.poolCreate with
  | error e => simp
  | ok u1 =>
    cases hg : w.getconn with
    | error e => simp
    | ok u2 =>
      cases hq : w.queryRaises with
      | none => simp
      | some e => simp

theorem active_pools_restored (w : RegistryWorld) (now : Int) (p : Pools) :
    (get_active_jobs_run w now p).pools = p := by
  obtain ⟨a, b, c⟩ := p
  unfold get_active_jobs_run
  cases hc : w.poolCreate with
  | error e => simp
  | ok u1 =>
    cases hg : w.getconn with
    | error e => simp
    | ok u2 =>
      cases hq : w.queryRaises with
      | none => simp
      | some e => simp

/-- C8.  Every connection checked out of a pool by
`get_pipeline_status`, `fetch_series_list`, `get_job_history` or
`get_active_jobs` is returned on every exit path, including those where
a query raises: at the end of each call the checked-out counters of all
pools equal what they were on entry. -/
theorem connections_always_returned (w : PipelineWorld) (sw : SeriesWorld)
    (wh wa : RegistryWorld) (limit : Nat) (now : Int) (p : Pools) :
    get_pipeline_status_pools w p = p ∧
    (fetch_series_list_run w sw p).2 = p ∧
    (get_job_history_run wh limit p).pools = p ∧
    (get_active_jobs_run wa now p).pools = p :=
  ⟨pipeline_pools_restored w p, series_pools_restored w sw p,
   history_pools_restored wh limit p, active_pools_restored wa now p⟩

/-! ## Claims about the job registry reader -/

/-- C7.  A registry read (`get_job_history` or `get_active_jobs`) whose
execution hits a failure — status pool unavailable, `getconn` raising,
or the query raising — returns an empty DataFrame and surfaces an error
report; being total functions, the embeddings propagate no exception. -/
theorem registry_read_failure_yields_empty (wh wa : RegistryWorld)
    (limit : Nat) (now : Int) (p : Pools) :
    (registryFails wh = true →
      (get_job_history_run wh limit p).rows = [] ∧
      (get_job_history_run wh limit p).reported ≠ []) ∧
    (registryFails wa = true →
      (get_active_jobs_run wa now p).rows = [] ∧
      (get_active_jobs_run wa now p).reported ≠ []) := by
  constructor
  · intro hf
    unfold registryFails at hf
    unfold get_job_history_run
    cases hc : wh.poolCreate with
    | error e => simp
    | ok u1 =>
      cases hg : wh.getconn with
      | error e => simp
      | ok u2 =>
        cases hq : wh.queryRaises with
        | some e => simp
        | none => simp [hc, hg, hq, Except.isOk, Except.toBool] at hf
  · intro hf
    unfold registryFails at hf
    unfold get_active_jobs_run
    cases hc : wa.poolCreate with
    | error e => simp
    | ok u1 =>
      cases hg : wa.getconn with
      | error e => simp
      | ok u2 =>
        cases hq : wa.queryRaises with
        | some e => simp
        | none => simp [hc, hg, hq, Except.isOk, Except.toBool] at hf

/-- Witness for C7: a history read with an unavailable status pool and
an active-jobs read whose query raises both come back empty. -/
theorem registry_read_failure_yields_empty_instance :
    (get_job_history_run ⟨Except.error "db down", Except.ok (), none, []⟩ 20 ⟨0, 0, 0⟩).rows
      = [] ∧
    (get_active_jobs_run ⟨Except.ok (), Except.ok (), some "boom", []⟩ 0 ⟨0, 0, 0⟩).rows
      = [] :=
  ⟨((registry_read_failure_yields_empty
      ⟨Except.error "db down", Except.ok (), none, []⟩
      ⟨Except.ok (), Except.ok (), some "boom", []⟩ 20 0 ⟨0, 0, 0⟩).1 (by decide)).1,
   ((registry_read_failure_yields_empty
      ⟨Except.error "db down", Except.ok (), none, []⟩
      ⟨Except.ok (), Except.ok (), some "boom", []⟩ 20 0 ⟨0, 0, 0⟩).2 (by decide)).1⟩

/-- C6 (amended).  `get_job_history(limit)` returns at most `limit`
rows, sorted by `created_at` descending, and the returned rows are a
function of the store contents and the limit alone, so re-querying an
unchanged store reproduces the same result.  Ties keep the store's
physical row order: the query names no second sort key. -/
theorem job_history_limit_and_order (w : RegistryWorld) (limit : Nat) (p q : Pools) :
    (get_job_history_run w limit p).rows.length ≤ limit ∧
    List.Pairwise (fun a b : HistoryRow => b.created_at ≤ a.created_at)
      (get_job_history_run w limit p).rows ∧
    (get_job_history_run w limit p).rows = (get_job_history_run w limit q).rows := by
  have hmain : ∀ pp : Pools,
      (get_job_history_run w limit pp).rows = [] ∨
      (get_job_history_run w limit pp).rows = runHistoryQuery w.store limit := by
    intro pp
    unfold get_job_history_run
    cases hc : w.poolCreate with
    | error e => simp
    | ok u1 =>
      cases hg : w.getconn with
      | error e => simp
      | ok u2 =>
        cases hq : w.queryRaises with
        | some e => simp
        | none => simp
  have hlen : (runHistoryQuery w.store limit).length ≤ limit := by
    unfold runHistoryQuery
    rw [List.length_map, List.length_take]
    exact min_le_left _ _
  have hsorted : List.Pairwise (fun a b : HistoryRow => b.created_at ≤ a.created_at)
      (runHistoryQuery w.store limit) := by
    unfold runHistoryQuery
    rw [List.pairwise_map]
    have hs : List.Pairwise createdDesc (orderByCreatedDesc w.store) :=
      List.sorted_insertionSort createdDesc w.store
    exact List.Pairwise.sublist (List.take_sublist _ _) hs
  have hsame : (get_job_history_run w limit p).rows = (get_job_history_run w limit q).rows := by
    unfold get_job_history_run
    cases hc : w.poolCreate with
    | error e => simp
    | ok u1 =>
      cases hg : w.getconn with
      | error e => simp
      | ok u2 =>
        cases hq : w.queryRaises with
        | some e => simp
        | none => simp
  rcases hmain p with hp | hp
  · exact ⟨by simp [hp], by simp [hp], hsame⟩
  · exact ⟨by rw [hp]; exact hlen, by rw [hp]; exact hsorted, hsame⟩

/-- Store used to exhibit the tie behaviour of `get_job_history`: three
jobs sharing one `created_at`, physically stored in the order
job-B, job-A, job-C. -/
def tieStore : List JobRow :=
  [⟨"job-B", "AAPL", "completed", "forecasting", 100, 160, none⟩,
   ⟨"job-A", "TSLA", "completed", "forecasting", 100, 150, none⟩,
   ⟨"job-C", "MSFT", "failed", "ingestion", 100, 140, some "boom"⟩]

/-- A fully successful registry read over `tieStore`. -/
def tieWorld : RegistryWorld := ⟨Except.ok (), Except.ok (), none, tieStore⟩

/-- Counterexample to C6 as stated: on a store whose rows share one
`created_at`, the rows returned by `get_job_history` are ordered
job-B, job-A, job-C — neither ascending nor descending in `job_id` — so
ties are not broken by `job_id`. -/
theorem job_history_ties_not_broken_by_job_id :
    ¬ List.Pairwise createdDescJobAsc (get_job_history_run tieWorld 20 ⟨0, 0, 0⟩).rows ∧
    ¬ List.Pairwise createdDescJobDesc (get_job_history_run tieWorld 20 ⟨0, 0, 0⟩).rows := by
  decide

/-! ## Claims about the pipeline trigger client -/

/-- Counterexample to C4 as stated: a transport-successful, 2xx,
well-formed JSON response that simply lacks the `job_id` field makes
`trigger_pipeline` report `success=True` (with `job_id=None`), not the
`success=False` the claim requires for a response missing the expected
job identifier field. -/
theorem trigger_missing_job_id_reports_success :
    (trigger_pipeline "AAPL" [] (HttpOutcome.ok ⟨none⟩)).success = true ∧
    (trigger_pipeline "AAPL" [] (HttpOutcome.ok ⟨none⟩)).job_id = none :=
  ⟨rfl, rfl⟩

/-- C4 (amended).  `trigger_pipeline` returns `success=False` exactly
when the transport fails, the status check fails, or the body fails to
parse; its message is never empty; no exception escapes (the embedding
is total); and on every parsed response it returns `success=True` with
`job_id` equal to whatever `result.get("job_id")` extracts — including
`none` when the field is absent. -/
theorem trigger_result_contract (sid : String) (cfg : List (String × String))
    (w : HttpOutcome) :
    ((trigger_pipeline sid cfg w).success = false ↔
      ((∃ e, w = HttpOutcome.transportError e) ∨ (∃ e, w = HttpOutcome.httpError e) ∨
       (∃ e, w = HttpOutcome.malformed e))) ∧
    (trigger_pipeline sid cfg w).message ≠ "" ∧
    (∀ body, w = HttpOutcome.ok body →
      (trigger_pipeline sid cfg w).success = true ∧
      (trigger_pipeline sid cfg w).job_id = body.jobIdField) := by
  cases w <;>
    simp [trigger_pipeline, trigger_fail_msg_ne_empty, started_msg_ne_empty]

/-- Witness for C4 (amended): on a parsed response carrying job-123 the
client reports success and extracts exactly that identifier. -/
theorem trigger_result_contract_instance :
    (trigger_pipeline "AAPL" [] (HttpOutcome.ok ⟨some "job-123"⟩)).success = true ∧
    (trigger_pipeline "AAPL" [] (HttpOutcome.ok ⟨some "job-123"⟩)).job_id = some "job-123" :=
  (trigger_result_contract "AAPL" [] (HttpOutcome.ok ⟨some "job-123"⟩)).2.2
    ⟨some "job-123"⟩ rfl

/-- C5.  The request issued by `trigger_pipeline` is identical whether
the caller supplies configuration options or none at all: the
`config_data` argument is dead, and the interval and lookback period are
the hard-coded constants 5m and 3mo, with no preprocessing-method
parameter at all. -/
theorem trigger_request_ignores_config_data :
    trigger_request "http://ingestion:8009/yahoo" "AAPL" [("method", "differencing")] =
      trigger_request "http://ingestion:8009/yahoo" "AAPL" [] ∧
    (trigger_request "http://ingestion:8009/yahoo" "AAPL"
        [("method", "differencing")]).params = [("interval", "5m"), ("period", "3mo")] :=
  ⟨rfl, rfl⟩

/-- C9.  The SQL text built by `fetch_time_series_data` is not a fixed
string: it changes with the caller-provided `hours` and `table`
arguments, which are interpolated into the f-string rather than bound;
only `series_id` is passed as a bound parameter. -/
theorem time_series_query_depends_on_caller_input :
    fetch_time_series_query "time_series_raw" 24 ≠
      fetch_time_series_query "time_series_raw" 168 ∧
    fetch_time_series_query "time_series_raw" 168 ≠
      fetch_time_series_query "time_series_preprocessed" 168 ∧
    fetch_time_series_params "AAPL" = ["AAPL"] := by
  refine ⟨by decide, by decide, rfl⟩

/-! ## Claims about the job-level status derivation (modelled from the spec) -/

theorem started_not_queued (stages : List StageStatus) (s : StageStatus)
    (hs : s ∈ startedStages stages) : s ≠ StageStatus.queued := by
  unfold startedStages at hs
  rcases List.mem_filter.mp hs with ⟨h1, h2⟩
  simpa using h2

theorem job_status_derivation_characterization (stages : List StageStatus) :
    (deriveJobStatus stages = "partial" ↔
      ((∃ s ∈ startedStages stages, s = StageStatus.failed) ∧
       (∃ s ∈ startedStages stages, s = StageStatus.completed ∨ s = StageStatus.running))) ∧
    (deriveJobStatus stages = "failed" ↔
      (startedStages stages ≠ [] ∧ ∀ s ∈ startedStages stages, s = StageStatus.failed)) ∧
    (deriveJobStatus stages = "completed" ↔
      (startedStages stages ≠ [] ∧ ∀ s ∈ startedStages stages, s = StageStatus.completed)) ∧
    (deriveJobStatus stages = "running" ↔
      (startedStages stages = [] ∨
       ((∀ s ∈ startedStages stages, s ≠ StageStatus.failed) ∧
        ∃ s ∈ startedStages stages, s = StageStatus.running))) := by
  cases hE : stages.isEmpty with
  | true =>
    have h0 : stages = [] := by simpa using hE
    subst h0
    simp [deriveJobStatus, startedStages]
  | false =>
    cases hF : (startedStages stages).any (fun s => s == StageStatus.failed) with
    | true =>
      have hFp : ∃ s ∈ startedStages stages, s = StageStatus.failed := by
        simpa using hF
      cases hCR : (startedStages stages).any
          (fun s => s == StageStatus.completed || s == StageStatus.running) with
      | true =>
        have hCRp : ∃ s ∈ startedStages stages,
            s = StageStatus.completed ∨ s = StageStatus.running := by
          simpa using hCR
        have hd : deriveJobStatus stages = "partial" := by
          simp [deriveJobStatus, hE, hF, hCR]
        rw [hd]
        refine ⟨iff_of_true rfl ⟨hFp, hCRp⟩, ?_, ?_, ?_⟩
        · simp only [show ("partial" = "failed") = False by simp, false_iff]
          rintro ⟨h1, h2⟩
          rcases hCRp with ⟨s, hs, hcr⟩
          have hsf := h2 s hs
          subst hsf
          simp at hcr
        · simp only [show ("partial" = "completed") = False by simp, false_iff]
          rintro ⟨h1, h2⟩
          rcases hFp with ⟨s, hs, hf⟩
          have := h2 s hs
          simp [hf] at this
        · simp only [show ("partial" = "running") = False by simp, false_iff]
          rintro (h1 | ⟨h2, h3⟩)
          · rcases hFp with ⟨s, hs, _⟩
            simp [h1] at hs
          · rcases hFp with ⟨s, hs, hf⟩
            exact h2 s hs hf
      | false =>
        have hCRn : ∀ s ∈ startedStages stages,
            ¬(s = StageStatus.completed ∨ s = StageStatus.running) := by
          intro s hs
          have := List.any_eq_false.mp hCR s hs
          simpa using this
        have hd : deriveJobStatus stages = "failed" := by
          simp [deriveJobStatus, hE, hF, hCR]
        have hall : ∀ s ∈ startedStages stages, s = StageStatus.failed := by
          intro s hs
          have hq := started_not_queued stages s hs
          have hcr := hCRn s hs
          cases s with
          | queued => exact absurd rfl hq
          | running => exact absurd (Or.inr rfl) hcr
          | completed => exact absurd (Or.inl rfl) hcr
          | failed => rfl
        have hne : startedStages stages ≠ [] := by
          rcases hFp with ⟨s, hs, _⟩
          intro h0
          simp [h0] at hs
        rw [hd]
        refine ⟨?_, iff_of_true rfl ⟨hne, hall⟩, ?_, ?_⟩
        · simp only [show ("failed" = "partial") = False by simp, false_iff]
          rintro ⟨h1, h2⟩
          rcases h2 with ⟨s, hs, hcr⟩
          exact hCRn s hs hcr
        · simp only [show ("failed" = "completed") = False by simp, false_iff]
          rintro ⟨h1, h2⟩
          rcases hFp with ⟨s, hs, hf⟩
          have := h2 s hs
          simp [hf] at this
        · simp only [show ("failed" = "running") = False by simp, false_iff]
          rintro (h1 | ⟨h2, h3⟩)
          · exact hne h1
          · rcases hFp with ⟨s, hs, hf⟩
            exact h2 s hs hf
    | false =>
      have hFn : ∀ s ∈ startedStages stages, s ≠ StageStatus.failed := by
        intro s hs
        have := List.any_eq_false.mp hF s hs
        simpa using this
      cases hR : (startedStages stages).any (fun s => s == StageStatus.running) with
      | true =>
        have hRp : ∃ s ∈ startedStages stages, s = StageStatus.running := by
          simpa using hR
        have hd : deriveJobStatus stages = "running" := by
          simp [deriveJobStatus, hE, hF, hR]
        rw [hd]
        refine ⟨?_, ?_, ?_, iff_of_true rfl (Or.inr ⟨hFn, hRp⟩)⟩
        · simp only [show ("running" = "partial") = False by simp, false_iff]
          rintro ⟨⟨s, hs, hf⟩, h2⟩
          exact hFn s hs hf
        · simp only [show ("running" = "failed") = False by simp, false_iff]
          rintro ⟨h1, h2⟩
          rcases hRp with ⟨s, hs, hr⟩
          have := h2 s hs
          simp [hr] at this
        · simp only [show ("running" = "completed") = False by simp, false_iff]
          rintro ⟨h1, h2⟩
          rcases hRp with ⟨s, hs, hr⟩
          have := h2 s hs
          simp [hr] at this
      | false =>
        have hRn : ∀ s ∈ startedStages stages, s ≠ StageStatus.running := by
          intro s hs
          have := List.any_eq_false.mp hR s hs
          simpa using this
        cases hSE : (startedStages stages).isEmpty with
        | true =>
          have h0 : startedStages stages = [] := by simpa using hSE
          have hd : deriveJobStatus stages = "running" := by
            simp [deriveJobStatus, hE, hF, hR, hSE]
          rw [hd]
          refine ⟨?_, ?_, ?_, iff_of_true rfl (Or.inl h0)⟩
          · simp only [show ("running" = "partial") = False by simp, false_iff]
            rintro ⟨⟨s, hs, _⟩, _⟩
            simp [h0] at hs
          · simp only [show ("running" = "failed") = False by simp, false_iff]
            rintro ⟨h1, _⟩
            exact h1 h0
          · simp only [show ("running" = "completed") = False by simp, false_iff]
            rintro ⟨h1, _⟩
            exact h1 h0
        | false =>
          have hne : startedStages stages ≠ [] := by
            simpa using hSE
          have hall : ∀ s ∈ startedStages stages, s = StageStatus.completed := by
            intro s hs
            have hq := started_not_queued stages s hs
            have hf := hFn s hs
            have hr := hRn s hs
            cases s with
            | queued => exact absurd rfl hq
            | running => exact absurd rfl hr
            | completed => rfl
            | failed => exact absurd rfl hf
          have hC : (startedStages stages).all (fun s => s == StageStatus.completed) = true := by
            rw [List.all_eq_true]
            intro s hs
            simp [hall s hs]
          have hd : deriveJobStatus stages = "completed" := by
            simp [deriveJobStatus, hE, hF, hR, hSE, hC]
          rw [hd]
          refine ⟨?_, ?_, iff_of_true rfl ⟨hne, hall⟩, ?_⟩
          · simp only [show ("completed" = "partial") = False by simp, false_iff]
            rintro ⟨⟨s, hs, hf⟩, _⟩
            exact hFn s hs hf
          · simp only [show ("completed" = "failed") = False by simp, false_iff]
            rintro ⟨h1, h2⟩
            rcases List.exists_mem_of_ne_nil _ hne with ⟨s, hs⟩
            have := h2 s hs
            exact hFn s hs this
          · simp only [show ("completed" = "running") = False by simp, false_iff]
            rintro (h1 | ⟨h2, s, hs, hr⟩)
            · exact hne h1
            · exact hRn s hs hr

/-- Witness for the C3 characterization: a job whose recorded stages
are one completed stage and one queued stage derives `completed`, since
the derivation ranges over started stages only. -/
theorem job_status_derivation_characterization_instance :
    deriveJobStatus [StageStatus.completed, StageStatus.queued] = "completed" :=
  (job_status_derivation_characterization
    [StageStatus.completed, StageStatus.queued]).2.2.1.mpr ⟨by decide, by decide⟩

/-- Counterexample to C3 as stated: the claim requires status `running`
if and only if any stage is running, but on the stage list
[failed, running] the derivation yields `partial` (the partial rule has
precedence) even though a stage is running, so the four conditions of
the claim cannot all be read as independent iffs. -/
theorem job_status_running_rule_fails :
    deriveJobStatus [StageStatus.failed, StageStatus.running] ≠ "running" ∧
    StageStatus.running ∈ [StageStatus.failed, StageStatus.running] := by
  decide

end StockDashboard
